import Mathlib

/-!
Verification of the invest-ai dashboard script (`in_ai.py`).

The script is a single top-to-bottom Streamlit program:
* `get_company_info(symbol)` builds a dict from `ticker.info` using
  `dict.get` (absent keys give Python `None`), except the `"Market Cap"`
  entry which is pre-formatted as `f"${v:,}"` when the value is truthy
  and `"N/A"` otherwise;
* `get_fundamentals(symbol)` builds a dict of four optional floats via
  `dict.get`;
* `get_recent_prices(symbol)` takes the `tail(6)` of the price history
  and formats each date with `strftime("%Y-%m-%d")`;
* the main flow checks `GROQ_API_KEY` at startup (`st.error` + `st.stop`
  when falsy), renders sidebar inputs, and, when the run guard
  `run_analysis and stock1 and stock2` holds, renders the company-info
  tables, fundamentals metrics, price charts and an LLM narrative in
  that order, with no exception handling anywhere.

The embedding below models the upstream provider nondeterministically:
each call site receives its own response (`Except` = raised exception or
returned data with optional fields), and the Streamlit run is the list
of rendered items, an uncaught exception ending the run with a displayed
traceback while items already rendered remain.
-/

/-- The subset of fields of the `ticker.info` dict that the script reads.
Each is optional: `dict.get` yields Python `None` when the key is absent.
Floats are passed through unchanged by the script, so they are modelled
as rationals; `marketCap` is an integer upstream. -/
structure YfInfo where
  longName : Option String
  sector : Option String
  industry : Option String
  marketCap : Option Int
  previousClose : Option Rat
  trailingPE : Option Rat
  forwardPE : Option Rat
  priceToBook : Option Rat
deriving DecidableEq

/-- Groups a little-endian digit list into blocks of three, least
significant block first, as Python's `format(n, ",")` does. -/
def chunk3 {α : Type} : List α → List (List α)
  | [] => []
  | [a] => [[a]]
  | [a, b] => [[a, b]]
  | a :: b :: c :: rest => [a, b, c] :: chunk3 rest

/-- Python `f"{n:,}"` for an `int`: decimal digits with a comma every
three digits from the right, and a leading minus sign when negative. -/
def pyCommaFormat (n : Int) : String :=
  let mag := String.mk ((List.intersperse [','] (chunk3 (Nat.toDigits 10 n.natAbs).reverse)).flatten.reverse)
  if n < 0 then "-" ++ mag else mag

/-- The `"Market Cap"` entry of `get_company_info`:
`f"${info.get('marketCap'):,}" if info.get("marketCap") else "N/A"`.
Python truthiness of an optional int: `None` and `0` are falsy. -/
def marketCapStr (mc : Option Int) : String :=
  match mc with
  | none => "N/A"
  | some n => if n = 0 then "N/A" else "$" ++ pyCommaFormat n

/-- `get_company_info` (lines 23-31): the returned dict, in insertion
order. Values are Python str-or-None, hence `Option String`; the
`"Market Cap"` value is always a string. -/
def get_company_info (info : YfInfo) : List (String × Option String) :=
  [("Company", info.longName),
   ("Sector", info.sector),
   ("Industry", info.industry),
   ("Market Cap", some (marketCapStr info.marketCap))]

/-- `get_fundamentals` (lines 33-41): the returned dict of four optional
floats, in insertion order. -/
def get_fundamentals (info : YfInfo) : List (String × Option Rat) :=
  [("Previous Close", info.previousClose),
   ("Trailing P/E", info.trailingPE),
   ("Forward P/E", info.forwardPE),
   ("Price/Book", info.priceToBook)]

/-- Python `str()` of a str-or-None value, as an f-string interpolates
it: `None` prints as the four characters `None`. -/
def pyStrOfOpt (v : Option String) : String :=
  match v with
  | none => "None"
  | some s => s

/-- The narrative prompt (lines 110-114): a fixed f-string template
interpolating the two symbols and the two `info[...]["Company"]`
values. There is no fallback: an absent name interpolates as `None`. -/
def buildQuery (stock1 stock2 : String) (c1 c2 : Option String) : String :=
  "Compare " ++ stock1 ++ " (" ++ pyStrOfOpt c1 ++ ") and "
    ++ stock2 ++ " (" ++ pyStrOfOpt c2 ++ "). "
    ++ "Analyze fundamentals, recent price performance, risks, and give an investment recommendation. "
    ++ "Be concise and format your response as a professional financial analyst report with bullet points and sections."

/-- A `ticker.info` dict with every key the script reads absent. -/
def emptyYfInfo : YfInfo :=
  { longName := none, sector := none, industry := none, marketCap := none,
    previousClose := none, trailingPE := none, forwardPE := none,
    priceToBook := none }

/-- One row of the `get_recent_prices` output after
`tail(6).reset_index()[["Date", "Close", "Volume"]]` and
`strftime("%Y-%m-%d")`: a formatted date string, a close and a volume. -/
structure PricePoint where
  year : Nat
  month : Nat
  day : Nat
  close : Rat
  volume : Int
deriving DecidableEq

/-- The `k` decimal digits of `n`, most significant first, with leading
zeros — the digit values printed by a zero-padded `strftime` field of
width `k` (faithful for `n < 10^k`). -/
def beDigits : Nat → Nat → List Nat
  | 0, _ => []
  | k + 1, n => n / 10 ^ k :: beDigits k (n % 10 ^ k)

/-- Zero-padded width-`k` decimal rendering, as characters. -/
def padNum (k n : Nat) : List Char :=
  (beDigits k n).map Nat.digitChar

/-- `strftime("%Y-%m-%d")`: four-digit year, two-digit month, two-digit
day, separated by dashes (faithful for in-range calendar dates). -/
def fmtDate (y m d : Nat) : String :=
  String.mk (padNum 4 y ++ '-' :: padNum 2 m ++ '-' :: padNum 2 d)

/-- `get_recent_prices` (lines 43-48) applied to the history rows the
provider returned: keep the last six rows (`tail(6)`) and format each
date. -/
def get_recent_prices (hist : List PricePoint) : List (String × Rat × Int) :=
  (hist.drop (hist.length - 6)).map (fun p => (fmtDate p.year p.month p.day, p.close, p.volume))

/-- Everything the script renders to the page, in order. An uncaught
Python exception ends the Streamlit run with a displayed traceback
(`exceptionTrace`) while the items already rendered stay visible; the
server process itself keeps running. -/
inductive RenderItem where
  | errorBox (msg : String)
  | title (s : String)
  | caption (s : String)
  | header (s : String)
  | textInput (label value : String)
  | button (label : String)
  | subheader (s : String)
  | infoTable (rows : List (String × Option String))
  | metric (label : String) (value : Option Rat)
  | markdown (s : String)
  | lineChart (points : List (String × Rat))
  | exceptionTrace (msg : String)
deriving DecidableEq

/-- One provider/LLM response per call site, in the order the script
makes the calls: `ticker.info` for each `get_company_info`, again for
each `get_fundamentals`, `ticker.history` for each `get_recent_prices`,
and `assistant.run` on the built query. `Except.error` models a raised
exception. -/
structure Responses where
  info1 : Except String YfInfo
  info2 : Except String YfInfo
  fund1 : Except String YfInfo
  fund2 : Except String YfInfo
  hist1 : Except String (List PricePoint)
  hist2 : Except String (List PricePoint)
  llm : String → Except String String

/-- The `info1["Company"]` lookup used when building the query. -/
def companyField (i : YfInfo) : Option String :=
  (((get_company_info i).lookup "Company").getD none)

/-- The body of `if run_analysis and stock1 and stock2:` (lines 65-119),
rendered top to bottom; the first raised exception ends the run. -/
def mainFlow (r : Responses) (s1 s2 : String) : List RenderItem :=
  let acc := [RenderItem.subheader ("🏢 " ++ s1 ++ " Company Info")]
  match r.info1 with
  | .error e => acc ++ [.exceptionTrace e]
  | .ok i1 =>
  let acc := acc ++ [.infoTable (get_company_info i1),
                     .subheader ("🏢 " ++ s2 ++ " Company Info")]
  match r.info2 with
  | .error e => acc ++ [.exceptionTrace e]
  | .ok i2 =>
  let acc := acc ++ [.infoTable (get_company_info i2), .markdown "## 📌 Fundamentals"]
  match r.fund1 with
  | .error e => acc ++ [.exceptionTrace e]
  | .ok fi1 =>
  let acc := acc ++ ((get_fundamentals fi1).map fun kv => RenderItem.metric kv.1 kv.2)
  match r.fund2 with
  | .error e => acc ++ [.exceptionTrace e]
  | .ok fi2 =>
  let acc := acc ++ ((get_fundamentals fi2).map fun kv => RenderItem.metric kv.1 kv.2)
              ++ [.markdown "## 📈 Recent Price Trend"]
  match r.hist1 with
  | .error e => acc ++ [.exceptionTrace e]
  | .ok h1 =>
  match r.hist2 with
  | .error e => acc ++ [.exceptionTrace e]
  | .ok h2 =>
  let p1 := get_recent_prices h1
  let p2 := get_recent_prices h2
  let acc := acc ++ [.lineChart (p1.map fun x => (x.1, x.2.1)),
                     .lineChart (p2.map fun x => (x.1, x.2.1)),
                     .markdown "## 🤖 AI Investment Analysis"]
  let query := buildQuery s1 s2 (companyField i1) (companyField i2)
  match r.llm query with
  | .error e => acc ++ [.exceptionTrace e]
  | .ok resp => acc ++ [.markdown resp]

/-- Python truthiness of `os.getenv` output: `None` and `""` are falsy. -/
def pyTruthyStr (v : Option String) : Bool :=
  match v with
  | none => false
  | some s => !s.isEmpty

/-- The error message of the startup credential check (line 17). -/
def keyMissingMsg : String :=
  "❌ Groq API Key not found. Please set GROQ_API_KEY in your .env or environment variables."

/-- The whole script run: the `GROQ_API_KEY` check (lines 14-18) comes
before the title, caption and sidebar widgets (lines 53-60); `st.stop()`
ends the run there. The main content runs only under the guard
`run_analysis and stock1 and stock2` (line 65). -/
def script (apiKey : Option String) (r : Responses) (stock1 stock2 : String)
    (runAnalysis : Bool) : List RenderItem :=
  if !pyTruthyStr apiKey then
    [RenderItem.errorBox keyMissingMsg]
  else
    [RenderItem.title "📊 AI Investment Dashboard",
     .caption "Compare company fundamentals, stock performance, and AI analysis.",
     .header "📈 Stock Panel",
     .textInput "Stock 1 Symbol" stock1,
     .textInput "Stock 2 Symbol" stock2,
     .button "Run Analysis"]
    ++ (if runAnalysis && !stock1.isEmpty && !stock2.isEmpty then mainFlow r stock1 stock2 else [])

/-- A `ticker.info` dict whose only present field is a market cap of
3000000000. -/
def mcPresentInfo : YfInfo := { emptyYfInfo with marketCap := some 3000000000 }

/-- A `ticker.info` dict whose only present field is a market cap of 0. -/
def mcZeroInfo : YfInfo := { emptyYfInfo with marketCap := some 0 }

/-- C1 counterexample: on a provider response with every field absent,
`get_company_info` returns `None` (not the string `"N/A"`) for Company,
Sector and Industry, and `get_fundamentals` returns `None` for all four
metrics; only the `"Market Cap"` entry carries the `"N/A"` marker. This
refutes the claim that every absent field in the returned record is the
explicit `"N/A"` marker. -/
theorem c1_counterexample :
    get_company_info emptyYfInfo =
      [("Company", none), ("Sector", none), ("Industry", none),
       ("Market Cap", some "N/A")]
    ∧ get_fundamentals emptyYfInfo =
      [("Previous Close", none), ("Trailing P/E", none),
       ("Forward P/E", none), ("Price/Book", none)]
    ∧ (none : Option String) ≠ some "N/A" := by
  refine ⟨rfl, rfl, by decide⟩

/-- C1 amended: `get_company_info` and `get_fundamentals` are total (a
missing key never raises, because lookup is by `dict.get`), but an
absent field surfaces as Python `None`, not `"N/A"`; only the
`"Market Cap"` entry maps absence to the `"N/A"` marker. -/
theorem c1_absent_fields_become_none (info : YfInfo) :
    (info.longName = none → (get_company_info info).lookup "Company" = some none)
    ∧ (info.sector = none → (get_company_info info).lookup "Sector" = some none)
    ∧ (info.industry = none → (get_company_info info).lookup "Industry" = some none)
    ∧ (info.marketCap = none →
        (get_company_info info).lookup "Market Cap" = some (some "N/A"))
    ∧ (info.previousClose = none →
        (get_fundamentals info).lookup "Previous Close" = some none)
    ∧ (info.trailingPE = none →
        (get_fundamentals info).lookup "Trailing P/E" = some none)
    ∧ (info.forwardPE = none →
        (get_fundamentals info).lookup "Forward P/E" = some none)
    ∧ (info.priceToBook = none →
        (get_fundamentals info).lookup "Price/Book" = some none) := by
  refine ⟨fun h => ?_, fun h => ?_, fun h => ?_, fun h => ?_,
          fun h => ?_, fun h => ?_, fun h => ?_, fun h => ?_⟩ <;>
    simp [get_company_info, get_fundamentals, List.lookup, marketCapStr, h]

/-- C1 amended, evaluated at the all-absent response. -/
theorem c1_absent_fields_become_none_witness :
    (get_company_info emptyYfInfo).lookup "Company" = some none
    ∧ (get_fundamentals emptyYfInfo).lookup "Previous Close" = some none := by
  exact ⟨(c1_absent_fields_become_none emptyYfInfo).1 rfl,
         (c1_absent_fields_become_none emptyYfInfo).2.2.2.2.1 rfl⟩

/-- The prompt built for a left symbol `"ZZZZ"` whose `longName` is
absent, against a resolved right side. -/
def zzzzPrompt : String :=
  buildQuery "ZZZZ" "MSFT" none (some "Microsoft Corporation")

set_option maxRecDepth 4000 in
/-- C2 counterexample: with an absent company name for `"ZZZZ"`, the
prompt does not contain `"ZZZZ (ZZZZ)"`; Python interpolates `None`, so
it contains `"ZZZZ (None)"` instead. This refutes the claimed fallback
to the raw symbol string. -/
theorem c2_counterexample :
    ¬ ("ZZZZ (ZZZZ)".toList <:+: zzzzPrompt.toList)
    ∧ ("ZZZZ (None)".toList <:+: zzzzPrompt.toList) := by
  constructor <;> decide

/-- C2 amended: when a side's company name is absent, the prompt
interpolates Python's rendering of `None`, i.e. for symbol `"ZZZZ"` the
prompt contains the substring `"ZZZZ (None)"`, whatever the other side
holds; there is no fallback to the symbol. -/
theorem c2_absent_name_interpolates_none (s2 : String) (c2 : Option String) :
    "ZZZZ (None)".toList <:+: (buildQuery "ZZZZ" s2 none c2).toList := by
  have hq : buildQuery "ZZZZ" s2 none c2 =
      "Compare ZZZZ (None) and "
        ++ (s2 ++ (" (" ++ (pyStrOfOpt c2
        ++ "). Analyze fundamentals, recent price performance, risks, and give an investment recommendation. Be concise and format your response as a professional financial analyst report with bullet points and sections."))) := by
    simp [buildQuery, pyStrOfOpt, String.append_assoc]
  rw [hq]
  have hmid : "ZZZZ (None)".toList <:+: "Compare ZZZZ (None) and ".toList := by
    decide
  refine hmid.trans ?_
  simp only [String.toList, String.data_append]
  exact (List.prefix_append _ _).isInfix

/-- C5: the `"Market Cap"` rendering of `get_company_info` maps the
upstream integer 3000000000 to exactly `"$3,000,000,000"` and an absent
market cap to exactly `"N/A"`. -/
theorem c5_market_cap_format :
    (get_company_info mcPresentInfo).lookup "Market Cap"
      = some (some "$3,000,000,000")
    ∧ (get_company_info emptyYfInfo).lookup "Market Cap"
      = some (some "N/A") := by
  constructor <;> rfl

/-- C6 counterexample: for a present market cap of 3000000000,
`get_company_info` itself returns the already-formatted string
`"$3,000,000,000"` (currency prefix and separators), which is not the
raw decimal value `"3000000000"`; formatting happens at the fetch
helper, not in a separate presentation layer. -/
theorem c6_counterexample :
    (get_company_info mcPresentInfo).lookup "Market Cap"
      = some (some "$3,000,000,000")
    ∧ ("$3,000,000,000" : String) ≠ "3000000000" := by
  constructor
  · rfl
  · decide

/-- C6 amended: for every present, nonzero market cap `n`,
`get_company_info` surfaces the `"Market Cap"` entry pre-formatted as
`"$" ++ pyCommaFormat n`, i.e. formatting is applied inside the fetch
helper rather than left to the presentation layer. -/
theorem c6_market_cap_formatted_at_fetch (info : YfInfo) (n : Int)
    (h : info.marketCap = some n) (hn : n ≠ 0) :
    (get_company_info info).lookup "Market Cap"
      = some (some ("$" ++ pyCommaFormat n)) := by
  simp [get_company_info, List.lookup, marketCapStr, h, hn]

/-- C6 amended, evaluated at the 3000000000 response. -/
theorem c6_market_cap_formatted_at_fetch_witness :
    (get_company_info mcPresentInfo).lookup "Market Cap"
      = some (some ("$" ++ pyCommaFormat 3000000000)) :=
  c6_market_cap_formatted_at_fetch mcPresentInfo 3000000000 rfl (by decide)

/-- A fully-resolved sample `ticker.info` response. -/
def sampleInfoA : YfInfo :=
  { longName := some "Apple Inc.", sector := some "Technology",
    industry := some "Consumer Electronics", marketCap := some 3000000000,
    previousClose := some 190, trailingPE := some 29, forwardPE := some 27,
    priceToBook := some 45 }

/-- A second fully-resolved sample `ticker.info` response. -/
def sampleInfoM : YfInfo :=
  { longName := some "Microsoft Corporation", sector := some "Technology",
    industry := some "Software - Infrastructure", marketCap := some 2800000000,
    previousClose := some 410, trailingPE := some 35, forwardPE := some 31,
    priceToBook := some 12 }

/-- A provider trace in which every call succeeds. -/
def sampleResponses : Responses :=
  { info1 := .ok sampleInfoA, info2 := .ok sampleInfoM,
    fund1 := .ok sampleInfoA, fund2 := .ok sampleInfoM,
    hist1 := .ok [], hist2 := .ok [],
    llm := fun _ => .ok "report" }

/-- A provider trace in which only the second fundamentals fetch raises. -/
def fundFailResponses : Responses :=
  { sampleResponses with fund2 := .error "boom" }

/-- C3 counterexample: with both company-info fetches succeeding and the
second fundamentals fetch raising, the run IS aborted at that point: the
exception traceback is rendered, and neither the narrative header nor
the narrative text ever appears. This refutes the claim that the run
continues with `"N/A"` metrics and a successful narrative. -/
theorem c3_counterexample :
    RenderItem.exceptionTrace "boom" ∈ mainFlow fundFailResponses "AAPL" "MSFT"
    ∧ RenderItem.markdown "## 🤖 AI Investment Analysis"
        ∉ mainFlow fundFailResponses "AAPL" "MSFT"
    ∧ RenderItem.markdown "report" ∉ mainFlow fundFailResponses "AAPL" "MSFT" := by
  refine ⟨by decide, by decide, by decide⟩

/-- C3 amended: the script has no exception handling, so any raised
fetch error — either company-info fetch, either fundamentals fetch, or
either price-history fetch — aborts the remainder of the run right at
its point in the flow: the sections already rendered remain, the
failing side's data is not rendered at all (not even as `"N/A"`), and
nothing after the failure point (metrics, charts, narrative) is
produced. In particular there is no `DataUnavailable` policy
privileging company-info failures over fundamentals or price failures.
One conjunct per failing call site, each giving the exact rendered
output. -/
theorem c3_fetch_failure_aborts (i1 i2 f1 f2 : YfInfo) (e : String)
    (hs1 hs2 : Except String (List PricePoint)) (fr1 fr2 : Except String YfInfo)
    (ir2 : Except String YfInfo) (h1 : List PricePoint)
    (llm : String → Except String String) (s1 s2 : String) :
    (mainFlow ⟨.error e, ir2, fr1, fr2, hs1, hs2, llm⟩ s1 s2 =
      [RenderItem.subheader ("🏢 " ++ s1 ++ " Company Info"),
       .exceptionTrace e])
    ∧ (mainFlow ⟨.ok i1, .error e, fr1, fr2, hs1, hs2, llm⟩ s1 s2 =
      [RenderItem.subheader ("🏢 " ++ s1 ++ " Company Info"),
       .infoTable (get_company_info i1),
       .subheader ("🏢 " ++ s2 ++ " Company Info"),
       .exceptionTrace e])
    ∧ (mainFlow ⟨.ok i1, .ok i2, .error e, fr2, hs1, hs2, llm⟩ s1 s2 =
      [RenderItem.subheader ("🏢 " ++ s1 ++ " Company Info"),
       .infoTable (get_company_info i1),
       .subheader ("🏢 " ++ s2 ++ " Company Info"),
       .infoTable (get_company_info i2),
       .markdown "## 📌 Fundamentals",
       .exceptionTrace e])
    ∧ (mainFlow ⟨.ok i1, .ok i2, .ok f1, .error e, hs1, hs2, llm⟩ s1 s2 =
      [RenderItem.subheader ("🏢 " ++ s1 ++ " Company Info"),
       .infoTable (get_company_info i1),
       .subheader ("🏢 " ++ s2 ++ " Company Info"),
       .infoTable (get_company_info i2),
       .markdown "## 📌 Fundamentals",
       .metric "Previous Close" f1.previousClose,
       .metric "Trailing P/E" f1.trailingPE,
       .metric "Forward P/E" f1.forwardPE,
       .metric "Price/Book" f1.priceToBook,
       .exceptionTrace e])
    ∧ (mainFlow ⟨.ok i1, .ok i2, .ok f1, .ok f2, .error e, hs2, llm⟩ s1 s2 =
      [RenderItem.subheader ("🏢 " ++ s1 ++ " Company Info"),
       .infoTable (get_company_info i1),
       .subheader ("🏢 " ++ s2 ++ " Company Info"),
       .infoTable (get_company_info i2),
       .markdown "## 📌 Fundamentals",
       .metric "Previous Close" f1.previousClose,
       .metric "Trailing P/E" f1.trailingPE,
       .metric "Forward P/E" f1.forwardPE,
       .metric "Price/Book" f1.priceToBook,
       .metric "Previous Close" f2.previousClose,
       .metric "Trailing P/E" f2.trailingPE,
       .metric "Forward P/E" f2.forwardPE,
       .metric "Price/Book" f2.priceToBook,
       .markdown "## 📈 Recent Price Trend",
       .exceptionTrace e])
    ∧ (mainFlow ⟨.ok i1, .ok i2, .ok f1, .ok f2, .ok h1, .error e, llm⟩ s1 s2 =
      [RenderItem.subheader ("🏢 " ++ s1 ++ " Company Info"),
       .infoTable (get_company_info i1),
       .subheader ("🏢 " ++ s2 ++ " Company Info"),
       .infoTable (get_company_info i2),
       .markdown "## 📌 Fundamentals",
       .metric "Previous Close" f1.previousClose,
       .metric "Trailing P/E" f1.trailingPE,
       .metric "Forward P/E" f1.forwardPE,
       .metric "Price/Book" f1.priceToBook,
       .metric "Previous Close" f2.previousClose,
       .metric "Trailing P/E" f2.trailingPE,
       .metric "Forward P/E" f2.forwardPE,
       .metric "Price/Book" f2.priceToBook,
       .markdown "## 📈 Recent Price Trend",
       .exceptionTrace e]) :=
  ⟨rfl, rfl, rfl, rfl, rfl, rfl⟩

/-- C8: when the text-generation call raises, the run renders exactly
the same items as a successful run up to (and including) the narrative
header, followed by the displayed exception instead of the narrative
text: the data sections already rendered remain visible, and the
Streamlit process keeps serving (an uncaught exception ends only the
run). When the call returns an empty string, the data sections likewise
remain and an empty markdown body is rendered. -/
theorem c8_llm_failure_preserves_sections (i1 i2 f1 f2 : YfInfo)
    (h1 h2 : List PricePoint) (e c : String) (s1 s2 : String) :
    (mainFlow ⟨.ok i1, .ok i2, .ok f1, .ok f2, .ok h1, .ok h2, fun _ => .error e⟩ s1 s2
      = (mainFlow ⟨.ok i1, .ok i2, .ok f1, .ok f2, .ok h1, .ok h2, fun _ => .ok c⟩ s1 s2).dropLast
        ++ [RenderItem.exceptionTrace e])
    ∧ (mainFlow ⟨.ok i1, .ok i2, .ok f1, .ok f2, .ok h1, .ok h2, fun _ => .ok ""⟩ s1 s2
      = (mainFlow ⟨.ok i1, .ok i2, .ok f1, .ok f2, .ok h1, .ok h2, fun _ => .ok c⟩ s1 s2).dropLast
        ++ [RenderItem.markdown ""]) := by
  constructor <;> rfl

/-- No step of the main flow renders a startup-style error box: the
credential check is the only place the script calls `st.error`. -/
theorem errorBox_not_mem_mainFlow (m : String) (r : Responses) (s1 s2 : String) :
    RenderItem.errorBox m ∉ mainFlow r s1 s2 := by
  obtain ⟨i1, i2, f1, f2, h1, h2, llm⟩ := r
  cases i1 <;> cases i2 <;> cases f1 <;> cases f2 <;> cases h1 <;> cases h2 <;>
    simp only [mainFlow, get_fundamentals, List.map] <;>
    first
      | (split <;> simp)
      | simp

/-- C7: with `GROQ_API_KEY` unset (or empty, equally falsy), the run
consists solely of the configuration error box — rendered before the
title, the symbol inputs or any fetch — and this startup check is the
only source of such a fatal error box: with a non-empty key no error
box is ever rendered, whatever the provider does. -/
theorem c7_missing_key_halts :
    (∀ (r : Responses) (s1 s2 : String) (run : Bool),
        script none r s1 s2 run = [RenderItem.errorBox keyMissingMsg])
    ∧ (∀ (r : Responses) (s1 s2 : String) (run : Bool),
        script (some "") r s1 s2 run = [RenderItem.errorBox keyMissingMsg])
    ∧ (∀ (k : String) (r : Responses) (s1 s2 : String) (run : Bool),
        k.isEmpty = false →
        RenderItem.errorBox keyMissingMsg ∉ script (some k) r s1 s2 run) := by
  refine ⟨fun r s1 s2 run => rfl, fun r s1 s2 run => rfl,
          fun k r s1 s2 run hk => ?_⟩
  by_cases hg : (run && !s1.isEmpty && !s2.isEmpty) = true
  · simp [script, pyTruthyStr, hk, hg, errorBox_not_mem_mainFlow]
  · simp [script, pyTruthyStr, hk, hg]

/-- C7, evaluated: the missing-key run at concrete inputs, and the
absence of the error box at a concrete non-empty key. -/
theorem c7_missing_key_halts_witness :
    script none sampleResponses "AAPL" "MSFT" true
      = [RenderItem.errorBox keyMissingMsg]
    ∧ RenderItem.errorBox keyMissingMsg
        ∉ script (some "k") sampleResponses "AAPL" "MSFT" true :=
  ⟨c7_missing_key_halts.1 sampleResponses "AAPL" "MSFT" true,
   c7_missing_key_halts.2.2 "k" sampleResponses "AAPL" "MSFT" true (by decide)⟩

/-- The widgets rendered before the run guard, for inputs `s1`, `s2`. -/
def headerItems (s1 s2 : String) : List RenderItem :=
  [RenderItem.title "📊 AI Investment Dashboard",
   .caption "Compare company fundamentals, stock performance, and AI analysis.",
   .header "📈 Stock Panel",
   .textInput "Stock 1 Symbol" s1,
   .textInput "Stock 2 Symbol" s2,
   .button "Run Analysis"]

/-- C10: with a truthy key, if either symbol input is the empty string
then the run guard `run_analysis and stock1 and stock2` is falsy, so
the page shows only the header widgets: no fetch result, no table, no
metric, no chart and no narrative is rendered — the run is skipped
silently rather than failing. -/
theorem c10_empty_symbol_skips_run (r : Responses) (s : String) (run : Bool) :
    script (some "k") r "" s run = headerItems "" s
    ∧ script (some "k") r s "" run = headerItems s "" := by
  constructor <;>
    simp [script, pyTruthyStr, headerItems, show "k".isEmpty = false from rfl,
          show "".isEmpty = true from rfl]

/-- Boolean strict lexicographic comparison of character lists, the
order in which formatted date strings are compared. -/
def charListLt : List Char → List Char → Bool
  | [], [] => false
  | [], _ :: _ => true
  | _ :: _, [] => false
  | a :: as, b :: bs => if a < b then true else if a = b then charListLt as bs else false

/-- Strict lexicographic order on strings (by character lists). -/
def strLt (s t : String) : Bool := charListLt s.toList t.toList

/-- Chronological order on price rows: lexicographic on
(year, month, day). -/
def dateLt (p q : PricePoint) : Prop :=
  p.year < q.year
    ∨ (p.year = q.year
        ∧ (p.month < q.month ∨ (p.month = q.month ∧ p.day < q.day)))

instance (p q : PricePoint) : Decidable (dateLt p q) := by
  unfold dateLt; infer_instance

/-- Field-width bounds under which the zero-padded `strftime` model is
exact: years below 10000 and two-digit month and day fields. Real
calendar dates satisfy far tighter bounds. -/
def dateInRange (p : PricePoint) : Prop :=
  p.year < 10000 ∧ p.month < 100 ∧ p.day < 100

instance (p : PricePoint) : Decidable (dateInRange p) := by
  unfold dateInRange; infer_instance

theorem beDigits_length (k : Nat) : ∀ n, (beDigits k n).length = k := by
  induction k with
  | zero => intro n; rfl
  | succ k ih => intro n; simp [beDigits, ih]

theorem padNum_length (k n : Nat) : (padNum k n).length = k := by
  simp [padNum, beDigits_length]

theorem digitChar_lt {a b : Nat} (hab : a < b) (hb : b ≤ 9) :
    Nat.digitChar a < Nat.digitChar b := by
  interval_cases b <;> interval_cases a <;> decide

theorem charListLt_cons_self (c : Char) (as bs : List Char) :
    charListLt (c :: as) (c :: bs) = charListLt as bs := by
  simp [charListLt]

theorem charListLt_append_left (l : List Char) {r1 r2 : List Char}
    (h : charListLt r1 r2 = true) : charListLt (l ++ r1) (l ++ r2) = true := by
  induction l with
  | nil => exact h
  | cons c cs ih => rw [List.cons_append, List.cons_append, charListLt_cons_self]; exact ih

theorem charListLt_append_of_lt {a1 : List Char} :
    ∀ {a2 : List Char}, charListLt a1 a2 = true → a1.length = a2.length →
    ∀ b1 b2 : List Char, charListLt (a1 ++ b1) (a2 ++ b2) = true := by
  induction a1 with
  | nil =>
    intro a2 h hlen b1 b2
    cases a2 with
    | nil => simp [charListLt] at h
    | cons d ds => simp at hlen
  | cons c cs ih =>
    intro a2 h hlen b1 b2
    cases a2 with
    | nil => simp at hlen
    | cons d ds =>
      by_cases hcd : c < d
      · simp [List.cons_append, charListLt, hcd]
      · by_cases heq : c = d
        · subst heq
          rw [List.cons_append, List.cons_append, charListLt_cons_self]
          rw [charListLt_cons_self] at h
          exact ih h (by simpa using hlen) b1 b2
        · rw [charListLt] at h
          simp [hcd, heq] at h

/-- The leading digit of a zero-padded width-`k + 1` field is a single
decimal digit. -/
theorem div_pow_le_nine {n k : Nat} (h : n < 10 ^ (k + 1)) : n / 10 ^ k ≤ 9 := by
  have hpow : 0 < 10 ^ k := Nat.pos_pow_of_pos k (by norm_num)
  have h' : n < 10 * 10 ^ k := by
    calc n < 10 ^ (k + 1) := h
    _ = 10 * 10 ^ k := by ring
  have := (Nat.div_lt_iff_lt_mul hpow).mpr h'
  omega

/-- Zero-padded equal-width decimal strings compare lexicographically
the same way the numbers compare. -/
theorem charListLt_padNum {k : Nat} :
    ∀ {a b : Nat}, a < b → b < 10 ^ k →
    charListLt (padNum k a) (padNum k b) = true := by
  induction k with
  | zero => intro a b hab hb; omega
  | succ k ih =>
    intro a b hab hb
    have hpow : 0 < 10 ^ k := Nat.pos_pow_of_pos k (by norm_num)
    have hq : a / 10 ^ k ≤ b / 10 ^ k := Nat.div_le_div_right (Nat.le_of_lt hab)
    have hqb : b / 10 ^ k ≤ 9 := div_pow_le_nine hb
    rw [show padNum (k + 1) a = Nat.digitChar (a / 10 ^ k) :: padNum k (a % 10 ^ k) from rfl,
        show padNum (k + 1) b = Nat.digitChar (b / 10 ^ k) :: padNum k (b % 10 ^ k) from rfl]
    rcases Nat.lt_or_ge (a / 10 ^ k) (b / 10 ^ k) with h | h
    · simp [charListLt, digitChar_lt h hqb]
    · have heq : a / 10 ^ k = b / 10 ^ k := Nat.le_antisymm hq h
      rw [heq, charListLt_cons_self]
      apply ih
      · have ha' : 10 ^ k * (b / 10 ^ k) + a % 10 ^ k = a := by
          rw [← heq]; exact Nat.div_add_mod a (10 ^ k)
        have hb'' : 10 ^ k * (b / 10 ^ k) + b % 10 ^ k = b := Nat.div_add_mod b (10 ^ k)
        omega
      · exact Nat.mod_lt _ hpow

/-- `fmtDate` is strictly monotone on in-range dates, with respect to
lexicographic string order. -/
theorem fmtDate_mono {p q : PricePoint} (_hp : dateInRange p) (hq : dateInRange q)
    (h : dateLt p q) :
    strLt (fmtDate p.year p.month p.day) (fmtDate q.year q.month q.day) = true := by
  show charListLt (padNum 4 p.year ++ '-' :: (padNum 2 p.month ++ '-' :: padNum 2 p.day))
    (padNum 4 q.year ++ '-' :: (padNum 2 q.month ++ '-' :: padNum 2 q.day)) = true
  rcases h with hy | ⟨hy, hm | ⟨hm, hd⟩⟩
  · exact charListLt_append_of_lt (charListLt_padNum hy hq.1)
      (by rw [padNum_length, padNum_length]) _ _
  · rw [hy]
    apply charListLt_append_left
    rw [charListLt_cons_self]
    exact charListLt_append_of_lt (charListLt_padNum hm hq.2.1)
      (by rw [padNum_length, padNum_length]) _ _
  · rw [hy, hm]
    apply charListLt_append_left
    rw [charListLt_cons_self]
    apply charListLt_append_left
    rw [charListLt_cons_self]
    exact charListLt_padNum hd hq.2.2

/-- The `YYYY-MM-DD` shape on characters: exactly ten characters,
digits everywhere except dashes at positions 4 and 7. -/
def isYMDChars : List Char → Bool
  | [y1, y2, y3, y4, d1, m1, m2, d2, a1, a2] =>
    y1.isDigit && y2.isDigit && y3.isDigit && y4.isDigit && (d1 = '-')
      && m1.isDigit && m2.isDigit && (d2 = '-') && a1.isDigit && a2.isDigit
  | _ => false

/-- The `YYYY-MM-DD` shape of a string. -/
def isYMD (s : String) : Bool := isYMDChars s.toList

theorem digitChar_isDigit {d : Nat} (hd : d ≤ 9) : (Nat.digitChar d).isDigit = true := by
  interval_cases d <;> decide

/-- In-range dates format to the `YYYY-MM-DD` shape. -/
theorem fmtDate_isYMD {p : PricePoint} (hp : dateInRange p) :
    isYMD (fmtDate p.year p.month p.day) = true := by
  obtain ⟨hy, hm, hd⟩ := hp
  have c1 : (Nat.digitChar (p.year / 1000)).isDigit = true :=
    digitChar_isDigit (by omega)
  have c2 : (Nat.digitChar (p.year % 1000 / 100)).isDigit = true :=
    digitChar_isDigit (by omega)
  have c3 : (Nat.digitChar (p.year % 1000 % 100 / 10)).isDigit = true :=
    digitChar_isDigit (by omega)
  have c4 : (Nat.digitChar (p.year % 1000 % 100 % 10)).isDigit = true :=
    digitChar_isDigit (by omega)
  have c5 : (Nat.digitChar (p.month / 10)).isDigit = true :=
    digitChar_isDigit (by omega)
  have c6 : (Nat.digitChar (p.month % 10)).isDigit = true :=
    digitChar_isDigit (by omega)
  have c7 : (Nat.digitChar (p.day / 10)).isDigit = true :=
    digitChar_isDigit (by omega)
  have c8 : (Nat.digitChar (p.day % 10)).isDigit = true :=
    digitChar_isDigit (by omega)
  show isYMDChars
    [Nat.digitChar (p.year / 10 ^ 3),
     Nat.digitChar (p.year % 10 ^ 3 / 10 ^ 2),
     Nat.digitChar (p.year % 10 ^ 3 % 10 ^ 2 / 10 ^ 1),
     Nat.digitChar (p.year % 10 ^ 3 % 10 ^ 2 % 10 ^ 1 / 10 ^ 0), '-',
     Nat.digitChar (p.month / 10 ^ 1), Nat.digitChar (p.month % 10 ^ 1 / 10 ^ 0), '-',
     Nat.digitChar (p.day / 10 ^ 1), Nat.digitChar (p.day % 10 ^ 1 / 10 ^ 0)] = true
  simp [isYMDChars, c1, c2, c3, c4, c5, c6, c7, c8]

/-- C4: with the provider's history rows in strictly chronological
order and carrying in-range calendar dates, `get_recent_prices` returns
at most six rows — the most recent ones, still chronological: the
formatted date strings are strictly increasing lexicographically — and
every date is rendered in the `YYYY-MM-DD` shape. -/
theorem c4_recent_prices_spec (hist : List PricePoint)
    (hsorted : List.Pairwise dateLt hist)
    (hrange : ∀ p ∈ hist, dateInRange p) :
    (get_recent_prices hist).length ≤ 6
    ∧ List.Pairwise (fun r s => strLt r.1 s.1 = true) (get_recent_prices hist)
    ∧ ∀ r ∈ get_recent_prices hist, isYMD r.1 = true := by
  have hsub : List.Sublist (hist.drop (hist.length - 6)) hist := List.drop_sublist _ _
  refine ⟨?_, ?_, ?_⟩
  · simp only [get_recent_prices, List.length_map, List.length_drop]
    omega
  · have hps : List.Pairwise dateLt (hist.drop (hist.length - 6)) :=
      hsorted.sublist hsub
    have hps' : List.Pairwise
        (fun p q => strLt (fmtDate p.year p.month p.day) (fmtDate q.year q.month q.day) = true)
        (hist.drop (hist.length - 6)) := by
      refine hps.imp_of_mem ?_
      intro p q hpmem hqmem hpq
      exact fmtDate_mono (hrange p (hsub.subset hpmem)) (hrange q (hsub.subset hqmem)) hpq
    exact List.pairwise_map.mpr hps'
  · intro r hr
    rcases List.mem_map.mp hr with ⟨p, hp, hde⟩
    rw [← hde]
    exact fmtDate_isYMD (hrange p (hsub.subset hp))

/-- C4, evaluated on a concrete seven-row chronological history. -/
theorem c4_recent_prices_spec_witness :
    ((get_recent_prices
        [⟨2024, 11, 29, 100, 10⟩, ⟨2024, 12, 31, 101, 11⟩, ⟨2025, 1, 31, 102, 12⟩,
         ⟨2025, 2, 28, 103, 13⟩, ⟨2025, 3, 31, 104, 14⟩, ⟨2025, 4, 30, 105, 15⟩,
         ⟨2025, 5, 30, 106, 16⟩]).length ≤ 6)
    ∧ List.Pairwise (fun r s => strLt r.1 s.1 = true)
        (get_recent_prices
          [⟨2024, 11, 29, 100, 10⟩, ⟨2024, 12, 31, 101, 11⟩, ⟨2025, 1, 31, 102, 12⟩,
           ⟨2025, 2, 28, 103, 13⟩, ⟨2025, 3, 31, 104, 14⟩, ⟨2025, 4, 30, 105, 15⟩,
           ⟨2025, 5, 30, 106, 16⟩])
    ∧ ∀ r ∈ get_recent_prices
          [⟨2024, 11, 29, 100, 10⟩, ⟨2024, 12, 31, 101, 11⟩, ⟨2025, 1, 31, 102, 12⟩,
           ⟨2025, 2, 28, 103, 13⟩, ⟨2025, 3, 31, 104, 14⟩, ⟨2025, 4, 30, 105, 15⟩,
           ⟨2025, 5, 30, 106, 16⟩], isYMD r.1 = true :=
  c4_recent_prices_spec _ (by decide) (by decide)

/-- C9: a present market cap equal to 0 is falsy in Python, so the
`"Market Cap"` entry renders `"N/A"` rather than `"$0"`. -/
theorem c9_zero_market_cap :
    mcZeroInfo.marketCap = some 0
    ∧ (get_company_info mcZeroInfo).lookup "Market Cap" = some (some "N/A")
    ∧ (get_company_info mcZeroInfo).lookup "Market Cap" ≠ some (some "$0") := by
  refine ⟨rfl, rfl, by decide⟩

